import Mathlib

/-!
Verification of `scnapkg.py`.

A shallow embedding of the Anki `.apkg` anomaly scanner `src/scnapkg.py`
(archive extraction, optional zstd decompression, SQLite inspection, regex
pattern scanning with interactive preview/expand prompts), together with
proofs of the testable properties stated by the specification.

Python strings are modelled as Lean `String`s; `len` and slicing act on
code points, matching Python semantics.  Console I/O is modelled as a list
of structured `Event`s, each constructor corresponding to one `print`/`input`
site in the source; `render` gives the exact printed text.  Operator replies
to `input()` are modelled as a stream `replies : Nat → String` consumed in
order, with a counter threaded through the scan.
-/

namespace Scnapkg

/-- ASCII lowercasing of a single character, modelling the effect of
`re.IGNORECASE` / `str.lower()` on the ASCII patterns used by the source. -/
def lowerAscii (c : Char) : Char :=
  if 'A' ≤ c && c ≤ 'Z' then Char.ofNat (c.toNat + 32) else c

/-- Does `hay` start with `needle`?  (Arguments: needle first.) -/
def listStartsWith : List Char → List Char → Bool
  | [], _ => true
  | _ :: _, [] => false
  | a :: as, b :: bs => a == b && listStartsWith as bs

/-- Does `needle` occur contiguously somewhere in `hay`?  (Needle first.) -/
def isSubstrOf (needle : List Char) : List Char → Bool
  | [] => listStartsWith needle []
  | c :: cs => listStartsWith needle (c :: cs) || isSubstrOf needle cs

/-- Does the text contain an occurrence of the regex `` `[^`]+` `` —
a backtick, one or more non-backtick characters, then a closing backtick?
(`[^`]` matches any character except a backtick, newlines included.) -/
def hasBacktickSpan : List Char → Bool
  | [] => false
  | '\x60' :: rest =>
      (!(rest.takeWhile (fun c => c != '\x60')).isEmpty
        && !(rest.dropWhile (fun c => c != '\x60')).isEmpty)
      || hasBacktickSpan rest
  | _ :: rest => hasBacktickSpan rest

/-- Does the text contain an occurrence of the regex `\$\(.*\)` —
a literal `$(`, then any characters other than a newline (`.` does not match
`\n` in the default Python mode), then a literal `)`? -/
def hasDollarParen : List Char → Bool
  | '$' :: '(' :: rest =>
      ((rest.takeWhile (fun c => c != '\n')).contains ')')
      || hasDollarParen ('(' :: rest)
  | _ :: rest => hasDollarParen rest
  | [] => false

/-- One alternative of a signature regex.  Every regex in the source is an
alternation of these three atom forms. -/
inductive Atom where
  | lit (s : String)
  | backtickSpan
  | dollarParen
deriving DecidableEq

/-- `re.search(alt₁|…|altₙ, s, re.IGNORECASE)` viewed as a Boolean:
does any alternative occur anywhere in the text?  Literal alternatives are
matched case-insensitively (all literals in the source are ASCII). -/
def atomSearch (hay : List Char) : Atom → Bool
  | Atom.lit s => isSubstrOf (s.data.map lowerAscii) (hay.map lowerAscii)
  | Atom.backtickSpan => hasBacktickSpan hay
  | Atom.dollarParen => hasDollarParen hay

/-- `re.search(pattern, s, re.IGNORECASE)` for the alternation patterns of
the source, as a Boolean. -/
def reSearch (pat : List Atom) (s : String) : Bool :=
  pat.any (atomSearch s.data)

/-- The fixed ordered signature list of `scan_for_patterns_in_column`:
* `<script>|onload=|eval\(|exec\(`
* `os\.system|subprocess\.run|eval\(|exec\(`
* `<iframe|<object|<embed|onclick=`
* `` `[^`]+`|\$\(.*\) ``
each regex decomposed into its alternatives. -/
def patterns : List (List Atom × String) :=
  [ ([Atom.lit "<script>", Atom.lit "onload=", Atom.lit "eval(", Atom.lit "exec("],
      "Potentially malicious JavaScript"),
    ([Atom.lit "os.system", Atom.lit "subprocess.run", Atom.lit "eval(", Atom.lit "exec("],
      "Suspicious Python execution"),
    ([Atom.lit "<iframe", Atom.lit "<object", Atom.lit "<embed", Atom.lit "onclick="],
      "Suspicious iframe/object/embed"),
    ([Atom.backtickSpan, Atom.dollarParen],
      "Potential shell command execution") ]

/-- The keyword regex of `scan_triggers`:
`delete|drop|alter|attach|pragma` (searched with `re.IGNORECASE`). -/
def triggerPattern : List Atom :=
  [Atom.lit "delete", Atom.lit "drop", Atom.lit "alter", Atom.lit "attach", Atom.lit "pragma"]

/-- Python string slice `s[:n]` (by code points). -/
def pyTake (n : Nat) (s : String) : String := ⟨s.data.take n⟩

/-- Python `str.strip()`-style whitespace (ASCII subset; the replies the
claims quantify over are ASCII). -/
def pyIsSpace (c : Char) : Bool :=
  c == ' ' || c == '\t' || c == '\n' || c == '\r' || c == '\x0b' || c == '\x0c'

/-- Python `str.strip()`: drop leading and trailing whitespace. -/
def pyStrip (s : String) : String :=
  ⟨((s.data.dropWhile pyIsSpace).reverse.dropWhile pyIsSpace).reverse⟩

/-- Python `str.lower()` (ASCII folding). -/
def pyLower (s : String) : String := ⟨s.data.map lowerAscii⟩

/-- One console interaction of the tool.  Each constructor corresponds to a
single `print(...)` or `input(...)` site in `src/scnapkg.py`; `render` below
gives the exact text shown. -/
inductive Event where
  | findingPreview (warning preview : String)
  | expandPrompt (reply : String)
  | fullContent (column : String)
  | findingFull (warning column : String)
  | scanningTable (tableName : String)
  | suspiciousTrigger (name sql : String)
  | extracted (apkg folder : String)
  | extractBadZip (apkg : String)
  | extractFailed (apkg msg : String)
  | decompressed (input output : String)
  | decompressMissing (input : String)
  | decompressFailed (input msg : String)
  | noValidDb
deriving DecidableEq

/-- The exact console text of each event, from the f-strings of the source. -/
def render : Event → String
  | Event.findingPreview w p => "[!] " ++ w ++ " detected: " ++ p ++ "..."
  | Event.expandPrompt _ => "Expand warning to full text? (y/n): "
  | Event.fullContent c => "[!] Full content:\n" ++ c ++ "\n"
  | Event.findingFull w c => "[!] " ++ w ++ " detected: " ++ c
  | Event.scanningTable t => "Scanning table: " ++ t
  | Event.suspiciousTrigger n s => "[!] Suspicious trigger detected: " ++ n ++ "\n" ++ s ++ "\n"
  | Event.extracted a f => "Extracted " ++ a ++ " to " ++ f
  | Event.extractBadZip a => "[!] Error: The file " ++ a ++ " is not a valid zip archive."
  | Event.extractFailed a m => "[!] Error: Failed to extract " ++ a ++ ". " ++ m
  | Event.decompressed i o => "Decompressed " ++ i ++ " to " ++ o
  | Event.decompressMissing i => "[!] Error: " ++ i ++ " not found."
  | Event.decompressFailed i m => "[!] Error: Failed to decompress " ++ i ++ ". " ++ m
  | Event.noValidDb => "[!] No valid SQLite database found."

/-- The `for pattern, warning in patterns:` loop body of
`scan_for_patterns_in_column`, over an explicit remaining signature list.
`replies` is the answer stream of the operator, `k` the index of the next
`input()` call; the returned `Nat` is the updated index. -/
def scanPatternList (column : String) (preview_length : Nat) (replies : Nat → String)
    (k : Nat) : List (List Atom × String) → List Event × Nat
  | [] => ([], k)
  | (pattern, warning) :: rest =>
    if reSearch pattern column then
      if column.length > preview_length then
        let reply := replies k
        let tail := scanPatternList column preview_length replies (k + 1) rest
        (Event.findingPreview warning (pyTake preview_length column)
          :: Event.expandPrompt reply
          :: ((if pyLower (pyStrip reply) = "y" then [Event.fullContent column] else [])
              ++ tail.1),
         tail.2)
      else
        let tail := scanPatternList column preview_length replies k rest
        (Event.findingFull warning column :: tail.1, tail.2)
    else
      scanPatternList column preview_length replies k rest

/-- `scan_for_patterns_in_column(column, preview_length)`: run every
signature of the fixed list against the column. -/
def scan_for_patterns_in_column (column : String) (preview_length : Nat)
    (replies : Nat → String) (k : Nat) : List Event × Nat :=
  scanPatternList column preview_length replies k patterns

/-- A SQLite dynamic value, as surfaced to Python by `sqlite3`:
`str`, `int`, `float`, `bytes` or `None`.  Only the dynamic type is ever
inspected by the scanner (`isinstance(column, str)`), so the numeric payload
of a `real` is irrelevant and omitted. -/
inductive SqlValue where
  | text (s : String)
  | intg (i : Int)
  | real
  | blob (bytes : List Nat)
  | null
deriving DecidableEq

/-- Is the value a Python `str` (`isinstance(column, str)`)? -/
def isTextVal : SqlValue → Bool
  | SqlValue.text _ => true
  | _ => false

/-- A table of the store: its name (assumed to be a plain identifier, so that
`SELECT * FROM {name}` reads exactly its rows) and its rows in the order the
underlying query returns them. -/
structure Table where
  name : String
  rows : List (List SqlValue)
deriving DecidableEq

/-- A trigger row of `sqlite_master`: name and SQL definition. -/
structure Trigger where
  name : String
  sql : String
deriving DecidableEq

/-- The relational store as seen through the queries the source issues:
the table rows of `sqlite_master` (`tables`), the trigger
rows (`triggers`), and the `flds` column of the `notes` table (`notesFlds`;
`flds` is a `TEXT` column in the Anki schema, so its values are strings). -/
structure Database where
  tables : List Table
  triggers : List Trigger
  notesFlds : List String

/-- The `for column in row:` loop of `scan_table`: only string fields are
scanned for patterns; every other value is skipped. -/
def scanRowValues (preview_length : Nat) (replies : Nat → String) (k : Nat) :
    List SqlValue → List Event × Nat
  | [] => ([], k)
  | SqlValue.text s :: rest =>
      let r := scan_for_patterns_in_column s preview_length replies k
      let t := scanRowValues preview_length replies r.2 rest
      (r.1 ++ t.1, t.2)
  | _ :: rest => scanRowValues preview_length replies k rest

/-- The `for row in rows:` loop of `scan_table`. -/
def scanRows (preview_length : Nat) (replies : Nat → String) (k : Nat) :
    List (List SqlValue) → List Event × Nat
  | [] => ([], k)
  | row :: rest =>
      let r := scanRowValues preview_length replies k row
      let t := scanRows preview_length replies r.2 rest
      (r.1 ++ t.1, t.2)

/-- `scan_table(cursor, table_name, preview_length)`:
`SELECT * FROM {table_name} LIMIT 50` then scan each string field of each
fetched row. -/
def scan_table (t : Table) (preview_length : Nat) (replies : Nat → String)
    (k : Nat) : List Event × Nat :=
  let r := scanRows preview_length replies k (t.rows.take 50)
  (Event.scanningTable t.name :: r.1, r.2)

/-- `scan_triggers(cursor)`: flag every trigger whose SQL matches the
destructive-keyword regex, printing its name and full SQL. -/
def scan_triggers : List Trigger → List Event
  | [] => []
  | t :: rest =>
      (if reSearch triggerPattern t.sql then [Event.suspiciousTrigger t.name t.sql] else [])
      ++ scan_triggers rest

/-- The `for note in notes:` loop of `scan_notes` over the fetched `flds`
values. -/
def scanNotesRows (preview_length : Nat) (replies : Nat → String) (k : Nat) :
    List String → List Event × Nat
  | [] => ([], k)
  | text :: rest =>
      let r := scan_for_patterns_in_column text preview_length replies k
      let t := scanNotesRows preview_length replies r.2 rest
      (r.1 ++ t.1, t.2)

/-- `scan_notes(cursor, preview_length)`:
`SELECT flds FROM notes LIMIT 50` then scan each value. -/
def scan_notes (notesFlds : List String) (preview_length : Nat)
    (replies : Nat → String) (k : Nat) : List Event × Nat :=
  scanNotesRows preview_length replies k (notesFlds.take 50)

/-- The `for table in tables:` loop of `scan_sqlite` in exhaustive mode. -/
def scanTables (preview_length : Nat) (replies : Nat → String) (k : Nat) :
    List Table → List Event × Nat
  | [] => ([], k)
  | t :: rest =>
      let r := scan_table t preview_length replies k
      let s := scanTables preview_length replies r.2 rest
      (r.1 ++ s.1, s.2)

/-- `scan_sqlite(db_path, preview_length, scan_all)` on a well-formed store
(the `sqlite3.DatabaseError` handlers are not exercised by a well-formed
store): exhaustive mode scans every table row of `sqlite_master`;
targeted mode scans the triggers and then the `notes` table. -/
def scan_sqlite (db : Database) (preview_length : Nat) (scan_all : Bool)
    (replies : Nat → String) (k : Nat) : List Event × Nat :=
  if scan_all then
    scanTables preview_length replies k db.tables
  else
    let n := scan_notes db.notesFlds preview_length replies k
    (scan_triggers db.triggers ++ n.1, n.2)

/-- Outcome of `zipfile.ZipFile(apkg_file).extractall(extract_folder)`:
success with the member names of the archive; `zipfile.BadZipFile` (raised when
opening the archive, before anything is written); or any other exception
raised mid-extraction, after `incompleteFiles` members were already
written. -/
inductive ZipResult where
  | okZip (members : List String)
  | badZip
  | failed (msg : String) (incompleteFiles : List String)
deriving DecidableEq

/-- `extract_apkg(apkg_file, extract_folder)`.  `makedirsResult` is the
outcome of `os.makedirs(extract_folder, exist_ok=True)`, which the source
runs OUTSIDE the `try` block: its exception (`Except.error`) propagates to
the caller.  The `try` block catches `zipfile.BadZipFile` and every other
`Exception` and prints a diagnostic.  Returns the printed events and the
paths created under `extract_folder`. -/
def extract_apkg (apkg_file extract_folder : String)
    (makedirsResult : Except String Unit) (zip : ZipResult) :
    Except String (List Event × List String) :=
  match makedirsResult with
  | Except.error e => Except.error e
  | Except.ok _ =>
    Except.ok (match zip with
      | ZipResult.okZip ms =>
          ([Event.extracted apkg_file extract_folder],
           ms.map (fun m => extract_folder ++ "/" ++ m))
      | ZipResult.badZip => ([Event.extractBadZip apkg_file], [])
      | ZipResult.failed msg inc =>
          ([Event.extractFailed apkg_file msg],
           inc.map (fun m => extract_folder ++ "/" ++ m)))

/-- Outcome of the zstd stream decompression inside `decompress_anki21b`. -/
inductive DecompressResult where
  | okDec
  | failed (msg : String)
deriving DecidableEq

/-- `decompress_anki21b(input_file, output_file)` when the input file exists
(the only way `main` calls it).  The output file is opened in write mode
before any decompression happens, so it exists afterwards whether or not the
zstd stream was valid; the returned Bool records that the output file was
created. -/
def decompress_anki21b (input_file output_file : String)
    (res : DecompressResult) : List Event × Bool :=
  match res with
  | DecompressResult.okDec => ([Event.decompressed input_file output_file], true)
  | DecompressResult.failed msg => ([Event.decompressFailed input_file msg], true)

/-- `main(apkg_file, preview_length, scan_all)`.  `fs0` is the set of paths
existing before the run (the working directory is the fixed name
`extracted_apkg`); `db` is the database content found at
`extracted_apkg/collection.anki2` when it is scanned.  On success, returns
the printed events and the set of existing paths afterwards; an
`Except.error` is an uncaught exception escaping the process. -/
def main (apkg_file : String) (preview_length : Nat) (scan_all : Bool)
    (fs0 : List String) (makedirsResult : Except String Unit) (zip : ZipResult)
    (dec : DecompressResult) (db : Database) (replies : Nat → String) :
    Except String (List Event × List String) :=
  match extract_apkg apkg_file "extracted_apkg" makedirsResult zip with
  | Except.error e => Except.error e
  | Except.ok (ev1, created) =>
    let db_path := "extracted_apkg/collection.anki2"
    let compressed_db_path := "extracted_apkg/collection.anki21b"
    let fs1 := fs0 ++ created
    let step2 : List Event × List String :=
      if fs1.contains compressed_db_path then
        let d := decompress_anki21b compressed_db_path db_path dec
        (d.1, if d.2 then fs1 ++ [db_path] else fs1)
      else ([], fs1)
    if step2.2.contains db_path then
      Except.ok (ev1 ++ step2.1 ++ (scan_sqlite db preview_length scan_all replies 0).1,
                 step2.2)
    else
      Except.ok (ev1 ++ step2.1 ++ [Event.noValidDb], step2.2)

/-- Is the event a finding (a `… detected: …` line)? -/
def isFinding : Event → Bool
  | Event.findingPreview _ _ => true
  | Event.findingFull _ _ => true
  | _ => false

/-- Is the event a confirmation prompt? -/
def isPrompt : Event → Bool
  | Event.expandPrompt _ => true
  | _ => false

/-- Is the event one emitted by `scan_for_patterns_in_column` (as opposed to
the table headers, trigger findings and file-handling messages)? -/
def isCellEvent : Event → Bool
  | Event.findingPreview _ _ => true
  | Event.expandPrompt _ => true
  | Event.fullContent _ => true
  | Event.findingFull _ _ => true
  | _ => false

/-- Is the event a `Scanning table: …` header? -/
def isScanningTable : Event → Bool
  | Event.scanningTable _ => true
  | _ => false

/-- Is the event a `Suspicious trigger detected` finding? -/
def isSuspiciousTriggerEv : Event → Bool
  | Event.suspiciousTrigger _ _ => true
  | _ => false

/-- The finding that `scan_for_patterns_in_column` emits for a matching
signature: a truncated preview for long text, the full text otherwise. -/
def findingFor (column : String) (preview_length : Nat) (warning : String) : Event :=
  if column.length > preview_length then Event.findingPreview warning (pyTake preview_length column)
  else Event.findingFull warning column

/- ### Helper lemmas -/

/-- The findings of a pattern-list scan: one per matching signature, in
signature-list order. -/
theorem scanPatternList_filter_isFinding (c : String) (n : Nat) (r : Nat → String) :
    ∀ (ps : List (List Atom × String)) (k : Nat),
      ((scanPatternList c n r k ps).1).filter isFinding
        = (ps.filter (fun pw => reSearch pw.1 c)).map (fun pw => findingFor c n pw.2) := by
  intro ps
  induction ps with
  | nil => intro k; rfl
  | cons pw rest ih =>
    intro k
    obtain ⟨p, w⟩ := pw
    cases hm : reSearch p c with
    | false => simp [scanPatternList, hm, ih]
    | true =>
      by_cases hl : c.length > n
      · by_cases hy : pyLower (pyStrip (r k)) = "y" <;>
          simp [scanPatternList, hm, hl, hy, isFinding, findingFor, ih]
      · simp [scanPatternList, hm, hl, isFinding, findingFor, ih]

/-- The prompts of a pattern-list scan: one per matching signature when the
text is longer than the preview length, none otherwise. -/
theorem scanPatternList_filter_isPrompt (c : String) (n : Nat) (r : Nat → String) :
    ∀ (ps : List (List Atom × String)) (k : Nat),
      (((scanPatternList c n r k ps).1).filter isPrompt).length
        = if c.length > n then (ps.filter (fun pw => reSearch pw.1 c)).length else 0 := by
  intro ps
  induction ps with
  | nil => intro k; simp [scanPatternList]
  | cons pw rest ih =>
    intro k
    obtain ⟨p, w⟩ := pw
    cases hm : reSearch p c with
    | false => simp [scanPatternList, hm, ih]
    | true =>
      by_cases hl : c.length > n
      · by_cases hy : pyLower (pyStrip (r k)) = "y" <;>
          simp [scanPatternList, hm, hl, hy, isPrompt, ih]
      · simp [scanPatternList, hm, hl, isPrompt, ih]

/-- Every event of a pattern-list scan is a cell event. -/
theorem scanPatternList_cellEvents (c : String) (n : Nat) (r : Nat → String) :
    ∀ (ps : List (List Atom × String)) (k : Nat),
      ∀ e ∈ (scanPatternList c n r k ps).1, isCellEvent e = true := by
  intro ps
  induction ps with
  | nil => intro k e he; simp [scanPatternList] at he
  | cons pw rest ih =>
    intro k e he
    obtain ⟨p, w⟩ := pw
    cases hm : reSearch p c with
    | false =>
      rw [scanPatternList, if_neg (by simp [hm])] at he
      exact ih k e he
    | true =>
      by_cases hl : c.length > n
      · rw [scanPatternList, if_pos (by simp [hm]), if_pos hl] at he
        simp only [List.mem_cons, List.mem_append] at he
        rcases he with h | h | h
        · simp [h, isCellEvent]
        · simp [h, isCellEvent]
        · rcases h with h | h
          · by_cases hy : pyLower (pyStrip (r k)) = "y"
            · simp [hy] at h; simp [h, isCellEvent]
            · simp [hy] at h
          · exact ih (k + 1) e h
      · rw [scanPatternList, if_pos (by simp [hm]), if_neg hl] at he
        rcases List.mem_cons.mp he with h | h
        · simp [h, isCellEvent]
        · exact ih k e h

/-- Every event of a row scan is a cell event. -/
theorem scanRowValues_cellEvents (n : Nat) (r : Nat → String) :
    ∀ (row : List SqlValue) (k : Nat),
      ∀ e ∈ (scanRowValues n r k row).1, isCellEvent e = true := by
  intro row
  induction row with
  | nil => intro k e he; simp [scanRowValues] at he
  | cons v rest ih =>
    intro k e he
    cases v with
    | text s =>
      rw [scanRowValues] at he
      rcases List.mem_append.mp he with h | h
      · exact scanPatternList_cellEvents s n r patterns k e h
      · exact ih _ e h
    | intg i => exact ih k e he
    | real => exact ih k e he
    | blob b => exact ih k e he
    | null => exact ih k e he

/-- Every event of a rows scan is a cell event. -/
theorem scanRows_cellEvents (n : Nat) (r : Nat → String) :
    ∀ (rows : List (List SqlValue)) (k : Nat),
      ∀ e ∈ (scanRows n r k rows).1, isCellEvent e = true := by
  intro rows
  induction rows with
  | nil => intro k e he; simp [scanRows] at he
  | cons row rest ih =>
    intro k e he
    rw [scanRows] at he
    rcases List.mem_append.mp he with h | h
    · exact scanRowValues_cellEvents n r row k e h
    · exact ih _ e h

/-- A cell event is neither a table header nor a trigger finding. -/
theorem isCellEvent_not_scanningTable {e : Event} (h : isCellEvent e = true) :
    isScanningTable e = false ∧ isSuspiciousTriggerEv e = false := by
  cases e <;> simp_all [isCellEvent, isScanningTable, isSuspiciousTriggerEv]

/-- The table headers of an exhaustive scan: one per table, in order. -/
theorem scanTables_filter_isScanningTable (n : Nat) (r : Nat → String) :
    ∀ (ts : List Table) (k : Nat),
      ((scanTables n r k ts).1).filter isScanningTable
        = ts.map (fun t => Event.scanningTable t.name) := by
  intro ts
  induction ts with
  | nil => intro k; simp [scanTables]
  | cons t rest ih =>
    intro k
    rw [scanTables]
    simp only [List.filter_append]
    rw [ih]
    have hrows : ((scanRows n r k (t.rows.take 50)).1).filter isScanningTable = [] := by
      rw [List.filter_eq_nil_iff]
      intro e he
      simp [(isCellEvent_not_scanningTable (scanRows_cellEvents n r _ k e he)).1]
    simp [scan_table, List.filter_cons, isScanningTable, hrows]

/-- No event of an exhaustive scan is a trigger finding. -/
theorem scanTables_no_trigger (n : Nat) (r : Nat → String) :
    ∀ (ts : List Table) (k : Nat),
      ∀ e ∈ (scanTables n r k ts).1, isSuspiciousTriggerEv e = false := by
  intro ts
  induction ts with
  | nil => intro k e he; simp [scanTables] at he
  | cons t rest ih =>
    intro k e he
    rw [scanTables] at he
    rcases List.mem_append.mp he with h | h
    · rw [scan_table] at h
      rcases List.mem_cons.mp h with h | h
      · simp [h, isSuspiciousTriggerEv]
      · exact (isCellEvent_not_scanningTable (scanRows_cellEvents n r _ k e h)).2
    · exact ih _ e h

/-- Closed form of `scan_triggers`: the matching triggers, in order, each
reported with its name and full SQL. -/
theorem scan_triggers_eq_filter (ts : List Trigger) :
    scan_triggers ts
      = (ts.filter (fun t => reSearch triggerPattern t.sql)).map
          (fun t => Event.suspiciousTrigger t.name t.sql) := by
  induction ts with
  | nil => rfl
  | cons t rest ih =>
    cases hm : reSearch triggerPattern t.sql <;>
      simp [scan_triggers, hm, List.filter_cons, ih]

/-- A matching trigger is reported by `scan_triggers`. -/
theorem scan_triggers_mem {ts : List Trigger} {t : Trigger} (h1 : t ∈ ts)
    (h2 : reSearch triggerPattern t.sql = true) :
    Event.suspiciousTrigger t.name t.sql ∈ scan_triggers ts := by
  rw [scan_triggers_eq_filter]
  exact List.mem_map_of_mem _ (List.mem_filter.mpr ⟨h1, h2⟩)

/-- Skipping non-string values: a row scan coincides with the scan of its
string values only. -/
theorem scanRowValues_filter_isTextVal (n : Nat) (r : Nat → String) :
    ∀ (row : List SqlValue) (k : Nat),
      scanRowValues n r k row = scanRowValues n r k (row.filter isTextVal) := by
  intro row
  induction row with
  | nil => intro k; rfl
  | cons v rest ih =>
    intro k
    cases v with
    | text s => rw [List.filter_cons_of_pos (by simp [isTextVal])]
                rw [scanRowValues, scanRowValues, ← ih]
    | intg i => rw [List.filter_cons_of_neg (by simp [isTextVal])]; exact ih k
    | real => rw [List.filter_cons_of_neg (by simp [isTextVal])]; exact ih k
    | blob b => rw [List.filter_cons_of_neg (by simp [isTextVal])]; exact ih k
    | null => rw [List.filter_cons_of_neg (by simp [isTextVal])]; exact ih k

/- ### Claim theorems -/

/-- C1: for every text value, the scanner emits exactly one finding per
signature of the fixed ordered list whose pattern matches (case-insensitively,
at any position), in signature list order and with no short-circuit after the
first match; for long text, each matching signature additionally issues its
own independent prompt. -/
theorem C1_one_finding_per_matching_signature (column : String) (preview_length : Nat)
    (replies : Nat → String) (k : Nat) :
    ((scan_for_patterns_in_column column preview_length replies k).1).filter isFinding
      = (patterns.filter (fun pw => reSearch pw.1 column)).map
          (fun pw => findingFor column preview_length pw.2)
    ∧ (((scan_for_patterns_in_column column preview_length replies k).1).filter isPrompt).length
      = (if column.length > preview_length
         then ((patterns.filter (fun pw => reSearch pw.1 column)).length) else 0) :=
  ⟨scanPatternList_filter_isFinding column preview_length replies patterns k,
   scanPatternList_filter_isPrompt column preview_length replies patterns k⟩

/-- C2: for a text value longer than the preview length that matches a
signature, the scanner prints exactly the first `preview_length` characters
followed by `...`, prompts, and prints the full text exactly when the
(stripped, lowercased) reply is affirmative (`y`). -/
theorem C2_long_text_preview_and_expand (column : String) (preview_length : Nat)
    (replies : Nat → String) (k : Nat) (pattern : List Atom) (warning : String)
    (rest : List (List Atom × String))
    (hm : reSearch pattern column = true) (hl : column.length > preview_length) :
    scanPatternList column preview_length replies k ((pattern, warning) :: rest)
      = (Event.findingPreview warning (pyTake preview_length column)
          :: Event.expandPrompt (replies k)
          :: ((if pyLower (pyStrip (replies k)) = "y"
               then [Event.fullContent column] else [])
              ++ (scanPatternList column preview_length replies (k + 1) rest).1),
         (scanPatternList column preview_length replies (k + 1) rest).2)
    ∧ render (Event.findingPreview warning (pyTake preview_length column))
        = "[!] " ++ warning ++ " detected: " ++ pyTake preview_length column ++ "..."
    ∧ (pyTake preview_length column).length = preview_length := by
  refine ⟨by simp [scanPatternList, hm, hl], rfl, ?_⟩
  have : column.length = column.data.length := rfl
  simp only [pyTake, String.length, List.length_take]
  omega

/-- C3: for a text value no longer than the preview length that matches a
signature, the scanner prints the label with the full untruncated text and
issues no confirmation prompt. -/
theorem C3_short_text_full_print_no_prompt (column : String) (preview_length : Nat)
    (replies : Nat → String) (k : Nat) (pattern : List Atom) (warning : String)
    (rest : List (List Atom × String))
    (hm : reSearch pattern column = true) (hl : column.length ≤ preview_length) :
    scanPatternList column preview_length replies k ((pattern, warning) :: rest)
      = (Event.findingFull warning column
          :: (scanPatternList column preview_length replies k rest).1,
         (scanPatternList column preview_length replies k rest).2)
    ∧ render (Event.findingFull warning column)
        = "[!] " ++ warning ++ " detected: " ++ column
    ∧ ((scan_for_patterns_in_column column preview_length replies k).1).filter isPrompt
        = [] := by
  refine ⟨by simp [scanPatternList, hm, Nat.not_lt.mpr hl], rfl, ?_⟩
  rw [← List.length_eq_zero, scan_for_patterns_in_column,
      scanPatternList_filter_isPrompt column preview_length replies patterns k]
  simp [Nat.not_lt.mpr hl]

/-- C4: `scan_triggers` flags exactly the triggers whose SQL contains a
destructive/administrative keyword (case-insensitively), printing the trigger
name and its full SQL; targeted mode runs it before scanning the notes
table. -/
theorem C4_suspicious_triggers (ts : List Trigger) (db : Database)
    (preview_length : Nat) (replies : Nat → String) (k : Nat) :
    scan_triggers ts
      = (ts.filter (fun t => reSearch triggerPattern t.sql)).map
          (fun t => Event.suspiciousTrigger t.name t.sql)
    ∧ (scan_sqlite db preview_length false replies k).1
      = scan_triggers db.triggers
          ++ (scan_notes db.notesFlds preview_length replies k).1 :=
  ⟨scan_triggers_eq_filter ts, rfl⟩

/-- C5: both `scan_table` and `scan_notes` read at most the first 50 rows the
underlying query returns: rows appended beyond the first 50 never change the
output of the scan. -/
theorem C5_row_cap (name : String) (rows extra : List (List SqlValue))
    (flds fextra : List String) (preview_length : Nat) (replies : Nat → String)
    (k : Nat) (h1 : 50 ≤ rows.length) (h2 : 50 ≤ flds.length) :
    scan_table ⟨name, rows ++ extra⟩ preview_length replies k
        = scan_table ⟨name, rows⟩ preview_length replies k
    ∧ scan_notes (flds ++ fextra) preview_length replies k
        = scan_notes flds preview_length replies k := by
  constructor
  · simp [scan_table, List.take_append_of_le_length h1]
  · simp [scan_notes, List.take_append_of_le_length h2]

/-- C6: in exhaustive mode the inspector visits every table of the schema in
order; each table is scanned over at most its first 50 rows; within a row,
exactly the string-typed values reach the Pattern Scanner and every
non-string value is skipped. -/
theorem C6_exhaustive_tables_string_columns (db : Database) (preview_length : Nat)
    (replies : Nat → String) (k : Nat) (row : List SqlValue) :
    ((scan_sqlite db preview_length true replies k).1).filter isScanningTable
        = db.tables.map (fun t => Event.scanningTable t.name)
    ∧ scanRowValues preview_length replies k row
        = scanRowValues preview_length replies k (row.filter isTextVal)
    ∧ (∀ t : Table, scan_table t preview_length replies k
          = scan_table ⟨t.name, t.rows.take 50⟩ preview_length replies k) := by
  refine ⟨?_, scanRowValues_filter_isTextVal preview_length replies row k, ?_⟩
  · rw [scan_sqlite, if_pos rfl]
    exact scanTables_filter_isScanningTable preview_length replies db.tables k
  · intro t
    simp [scan_table, List.take_take]

/-- C7 counterexample: an error from `os.makedirs` (which the source runs
outside the `try` block) propagates out of `extract_apkg` instead of being
caught and printed. -/
theorem C7_makedirs_error_propagates :
    extract_apkg "deck.apkg" "extracted_apkg"
        (Except.error "PermissionError: [Errno 13] Permission denied")
        (ZipResult.okZip ["collection.anki2"])
      = Except.error "PermissionError: [Errno 13] Permission denied" := rfl

/-- C7 (amended): once the output directory has been created successfully,
every extraction outcome — success, an invalid zip archive, and any other
extraction failure — is handled inside `extract_apkg` and converted to a
printed diagnostic; no exception escapes the `try` block. -/
theorem C7_zip_errors_caught (apkg_file extract_folder msg : String)
    (members incompleteFiles : List String) :
    extract_apkg apkg_file extract_folder (Except.ok ()) (ZipResult.okZip members)
        = Except.ok ([Event.extracted apkg_file extract_folder],
                     members.map (fun m => extract_folder ++ "/" ++ m))
    ∧ extract_apkg apkg_file extract_folder (Except.ok ()) ZipResult.badZip
        = Except.ok ([Event.extractBadZip apkg_file], [])
    ∧ extract_apkg apkg_file extract_folder (Except.ok ())
          (ZipResult.failed msg incompleteFiles)
        = Except.ok ([Event.extractFailed apkg_file msg],
                     incompleteFiles.map (fun m => extract_folder ++ "/" ++ m)) :=
  ⟨rfl, rfl, rfl⟩

/-- C8: on a fresh working directory, an invalid zip archive makes the run
print the extraction error followed by `No valid SQLite database found.`,
leave neither database file in existence, and perform no database scan. -/
theorem C8_invalid_zip_fresh_run (apkg_file : String) (preview_length : Nat)
    (scan_all : Bool) (fs0 : List String) (dec : DecompressResult) (db : Database)
    (replies : Nat → String)
    (h1 : fs0.contains "extracted_apkg/collection.anki2" = false)
    (h2 : fs0.contains "extracted_apkg/collection.anki21b" = false) :
    main apkg_file preview_length scan_all fs0 (Except.ok ()) ZipResult.badZip
        dec db replies
      = Except.ok ([Event.extractBadZip apkg_file, Event.noValidDb], fs0) := by
  have h1m : "extracted_apkg/collection.anki2" ∉ fs0 := by simpa using h1
  have h2m : "extracted_apkg/collection.anki21b" ∉ fs0 := by simpa using h2
  simp [main, extract_apkg, h1m, h2m]

/-- C9: the full-text expansion happens exactly when the reply of the operator,
stripped of surrounding whitespace and lowercased, is the single
character `y`; any other reply (for example `yes`) is negative, and either
way the scan continues with the remaining signatures. -/
theorem C9_expand_only_on_y (column : String) (preview_length : Nat)
    (replies : Nat → String) (k : Nat) (pattern : List Atom) (warning : String)
    (rest : List (List Atom × String))
    (hm : reSearch pattern column = true) (hl : column.length > preview_length) :
    scanPatternList column preview_length replies k ((pattern, warning) :: rest)
      = ([Event.findingPreview warning (pyTake preview_length column),
          Event.expandPrompt (replies k)]
          ++ (if pyLower (pyStrip (replies k)) = "y"
              then [Event.fullContent column] else [])
          ++ (scanPatternList column preview_length replies (k + 1) rest).1,
         (scanPatternList column preview_length replies (k + 1) rest).2)
    ∧ (Event.fullContent column
          ∈ [Event.findingPreview warning (pyTake preview_length column),
             Event.expandPrompt (replies k)]
            ++ (if pyLower (pyStrip (replies k)) = "y"
                then [Event.fullContent column] else [])
        ↔ pyLower (pyStrip (replies k)) = "y")
    ∧ pyLower (pyStrip "yes") ≠ "y" := by
  refine ⟨by simp [scanPatternList, hm, hl], ?_, by decide⟩
  by_cases hy : pyLower (pyStrip (replies k)) = "y" <;> simp [hy]

/-- C10: in exhaustive mode the trigger scan is not performed — even when the
store holds a trigger whose SQL contains a destructive keyword, the
exhaustive-mode run emits no suspicious-trigger finding, while the targeted
run of the same store reports that trigger. -/
theorem C10_exhaustive_no_trigger_scan (db : Database) (preview_length : Nat)
    (replies : Nat → String) (k : Nat) (t : Trigger)
    (h1 : t ∈ db.triggers) (h2 : reSearch triggerPattern t.sql = true) :
    ((scan_sqlite db preview_length true replies k).1).all
        (fun e => !(isSuspiciousTriggerEv e)) = true
    ∧ Event.suspiciousTrigger t.name t.sql
        ∈ (scan_sqlite db preview_length false replies k).1 := by
  constructor
  · rw [List.all_eq_true]
    intro e he
    rw [scan_sqlite, if_pos rfl] at he
    simp [scanTables_no_trigger preview_length replies db.tables k e he]
  · rw [scan_sqlite, if_neg (by simp)]
    exact List.mem_append_left _ (scan_triggers_mem h1 h2)

/- ### Witnesses -/

/-- Witness for C2 at the first signature, `column = "eval(abcdef"` and
`preview_length = 5`, with the operator answering `y`. -/
theorem C2_witness :
    reSearch [Atom.lit "<script>", Atom.lit "onload=", Atom.lit "eval(", Atom.lit "exec("]
        "eval(abcdef" = true
    ∧ ("eval(abcdef" : String).length > 5
    ∧ (scanPatternList "eval(abcdef" 5 (fun _ => "y") 0
          [([Atom.lit "<script>", Atom.lit "onload=", Atom.lit "eval(", Atom.lit "exec("],
            "Potentially malicious JavaScript")]
        = (Event.findingPreview "Potentially malicious JavaScript" (pyTake 5 "eval(abcdef")
            :: Event.expandPrompt "y"
            :: ((if pyLower (pyStrip "y") = "y"
                 then [Event.fullContent "eval(abcdef"] else [])
                ++ (scanPatternList "eval(abcdef" 5 (fun _ => "y") (0 + 1) []).1),
           (scanPatternList "eval(abcdef" 5 (fun _ => "y") (0 + 1) []).2)
      ∧ render (Event.findingPreview "Potentially malicious JavaScript" (pyTake 5 "eval(abcdef"))
          = "[!] " ++ "Potentially malicious JavaScript" ++ " detected: "
              ++ pyTake 5 "eval(abcdef" ++ "..."
      ∧ (pyTake 5 "eval(abcdef").length = 5) :=
  ⟨by decide, by decide,
   C2_long_text_preview_and_expand "eval(abcdef" 5 (fun _ => "y") 0
     [Atom.lit "<script>", Atom.lit "onload=", Atom.lit "eval(", Atom.lit "exec("]
     "Potentially malicious JavaScript" [] (by decide) (by decide)⟩

/-- Witness for C3 at the first signature, `column = "eval(1)"` and the
default `preview_length = 300`. -/
theorem C3_witness :
    reSearch [Atom.lit "<script>", Atom.lit "onload=", Atom.lit "eval(", Atom.lit "exec("]
        "eval(1)" = true
    ∧ ("eval(1)" : String).length ≤ 300
    ∧ (scanPatternList "eval(1)" 300 (fun _ => "") 0
          [([Atom.lit "<script>", Atom.lit "onload=", Atom.lit "eval(", Atom.lit "exec("],
            "Potentially malicious JavaScript")]
        = (Event.findingFull "Potentially malicious JavaScript" "eval(1)"
            :: (scanPatternList "eval(1)" 300 (fun _ => "") 0 []).1,
           (scanPatternList "eval(1)" 300 (fun _ => "") 0 []).2)
      ∧ render (Event.findingFull "Potentially malicious JavaScript" "eval(1)")
          = "[!] " ++ "Potentially malicious JavaScript" ++ " detected: " ++ "eval(1)"
      ∧ ((scan_for_patterns_in_column "eval(1)" 300 (fun _ => "") 0).1).filter isPrompt
          = []) :=
  ⟨by decide, by decide,
   C3_short_text_full_print_no_prompt "eval(1)" 300 (fun _ => "") 0
     [Atom.lit "<script>", Atom.lit "onload=", Atom.lit "eval(", Atom.lit "exec("]
     "Potentially malicious JavaScript" [] (by decide) (by decide)⟩

/-- Witness for C5 on a 50-row table and a 50-row notes column, each extended
by an extra matching row. -/
theorem C5_witness :
    50 ≤ (List.replicate 50 ([] : List SqlValue)).length
    ∧ 50 ≤ (List.replicate 50 ("" : String)).length
    ∧ (scan_table ⟨"notes", List.replicate 50 ([] : List SqlValue)
            ++ [[SqlValue.text "eval(x)"]]⟩ 300 (fun _ => "") 0
        = scan_table ⟨"notes", List.replicate 50 ([] : List SqlValue)⟩ 300 (fun _ => "") 0
      ∧ scan_notes (List.replicate 50 ("" : String) ++ ["eval(x)"]) 300 (fun _ => "") 0
        = scan_notes (List.replicate 50 ("" : String)) 300 (fun _ => "") 0) :=
  ⟨by decide, by decide,
   C5_row_cap "notes" (List.replicate 50 ([] : List SqlValue)) [[SqlValue.text "eval(x)"]]
     (List.replicate 50 ("" : String)) ["eval(x)"] 300 (fun _ => "") 0
     (by decide) (by decide)⟩

/-- Witness for C8: a run on an empty filesystem with an invalid archive. -/
theorem C8_witness :
    (([] : List String).contains "extracted_apkg/collection.anki2" = false)
    ∧ (([] : List String).contains "extracted_apkg/collection.anki21b" = false)
    ∧ main "bad.apkg" 300 false [] (Except.ok ()) ZipResult.badZip
          DecompressResult.okDec ⟨[], [], []⟩ (fun _ => "")
        = Except.ok ([Event.extractBadZip "bad.apkg", Event.noValidDb], ([] : List String)) :=
  ⟨rfl, rfl,
   C8_invalid_zip_fresh_run "bad.apkg" 300 false [] DecompressResult.okDec
     ⟨[], [], []⟩ (fun _ => "") rfl rfl⟩

/-- Witness for C9 at the first signature with the negative reply `yes`. -/
theorem C9_witness :
    reSearch [Atom.lit "<script>", Atom.lit "onload=", Atom.lit "eval(", Atom.lit "exec("]
        "eval(abcdef" = true
    ∧ ("eval(abcdef" : String).length > 5
    ∧ (scanPatternList "eval(abcdef" 5 (fun _ => "yes") 0
          [([Atom.lit "<script>", Atom.lit "onload=", Atom.lit "eval(", Atom.lit "exec("],
            "Potentially malicious JavaScript")]
        = ([Event.findingPreview "Potentially malicious JavaScript" (pyTake 5 "eval(abcdef"),
            Event.expandPrompt "yes"]
            ++ (if pyLower (pyStrip "yes") = "y"
                then [Event.fullContent "eval(abcdef"] else [])
            ++ (scanPatternList "eval(abcdef" 5 (fun _ => "yes") (0 + 1) []).1,
           (scanPatternList "eval(abcdef" 5 (fun _ => "yes") (0 + 1) []).2)
      ∧ (Event.fullContent "eval(abcdef"
            ∈ [Event.findingPreview "Potentially malicious JavaScript" (pyTake 5 "eval(abcdef"),
               Event.expandPrompt "yes"]
              ++ (if pyLower (pyStrip "yes") = "y"
                  then [Event.fullContent "eval(abcdef"] else [])
          ↔ pyLower (pyStrip "yes") = "y")
      ∧ pyLower (pyStrip "yes") ≠ "y") :=
  ⟨by decide, by decide,
   C9_expand_only_on_y "eval(abcdef" 5 (fun _ => "yes") 0
     [Atom.lit "<script>", Atom.lit "onload=", Atom.lit "eval(", Atom.lit "exec("]
     "Potentially malicious JavaScript" [] (by decide) (by decide)⟩

/-- Witness for C10 on a store holding only the trigger `trg_wipe` with SQL
`DROP TABLE notes;`. -/
theorem C10_witness :
    (⟨"trg_wipe", "DROP TABLE notes;"⟩ : Trigger)
        ∈ (Database.mk [] [⟨"trg_wipe", "DROP TABLE notes;"⟩] []).triggers
    ∧ reSearch triggerPattern "DROP TABLE notes;" = true
    ∧ (((scan_sqlite (Database.mk [] [⟨"trg_wipe", "DROP TABLE notes;"⟩] [])
            300 true (fun _ => "") 0).1).all (fun e => !(isSuspiciousTriggerEv e)) = true
      ∧ Event.suspiciousTrigger "trg_wipe" "DROP TABLE notes;"
          ∈ (scan_sqlite (Database.mk [] [⟨"trg_wipe", "DROP TABLE notes;"⟩] [])
              300 false (fun _ => "") 0).1) :=
  ⟨by decide, by decide,
   C10_exhaustive_no_trigger_scan (Database.mk [] [⟨"trg_wipe", "DROP TABLE notes;"⟩] [])
     300 (fun _ => "") 0 ⟨"trg_wipe", "DROP TABLE notes;"⟩ (by decide) (by decide)⟩

end Scnapkg
